import Mathlib

/-
Verification of the token lifecycle engine of auth_service.

The engine lives in services.TokenService (tokenService.go): NewTokenService,
GenerateTokens, ValidateAccess, ValidateRefresh, rotateScript, RotateRefresh,
RevokeRefreshByRaw, plus the RPC handler Refresh in internal/rpc.

Modelling conventions:
- The Redis backend is an explicit association-list state `Store` mapping
  redis keys to hash entries (user_id, issued_at) with an optional TTL
  (none = the key has no expiry set, mirroring a key created by HSET before
  any EXPIRE call).
- Backend faults, entropy-source results and clock reads are passed in as
  explicit oracle values, so every operation is a pure function of
  (config, oracle, now, store, arguments) returning (new store, result).
- SHA-256 and HS256 signing are modelled as deterministic injective
  encodings; the claims under verification depend only on determinism of
  the digest, never on its cryptographic properties.
- Go's multiple return values (access, refresh, accessExp, refreshExp, err)
  are kept as a flat structure `TokenResult`, zero values included, so that
  claims about "returns none of the four values" are real statements and
  not artifacts of an `Except` encoding.
-/

namespace AuthService

/-- Modelled from the spec: the error taxonomy of the internal `autherr`
package, which is not part of the provided sources (only its call sites
are).  Section 7 of the spec lists the classes; the call sites additionally
use `ErrBadRequest`, `ErrStorage` (distinct from `ErrStorageError`) and the
user-service classes. -/
inductive ErrClass where
  | badRequest
  | storageError
  | storage
  | tokenGeneration
  | invalidToken
  | tokenExpired
  | notFound
deriving DecidableEq, Repr

/-- Modelled from the spec: an autherr error value carries a classification
and an optional diagnostic message (`WithMessage` keeps the class). -/
structure AuthErr where
  cls : ErrClass
  msg : String
deriving DecidableEq, Repr

def AuthErr.WithMessage (e : AuthErr) (m : String) : AuthErr :=
  ⟨e.cls, m⟩

def ErrBadRequest : AuthErr := ⟨.badRequest, ""⟩

def ErrStorageError : AuthErr := ⟨.storageError, ""⟩

def ErrStorage : AuthErr := ⟨.storage, ""⟩

def ErrTokenGeneration : AuthErr := ⟨.tokenGeneration, ""⟩

def ErrInvalidToken : AuthErr := ⟨.invalidToken, ""⟩

def ErrTokenExpired : AuthErr := ⟨.tokenExpired, ""⟩

/-- One Redis hash entry as used by the service: fields `user_id` and
`issued_at`. -/
structure RefreshRecord where
  user_id : String
  issued_at : Int
deriving DecidableEq, Repr

/-- A stored value together with its TTL state: `none` means no expiry is
attached to the key (PERSIST state, as after a bare HSET on a fresh key),
`some t` means an expiry of `t` seconds is attached. -/
structure Entry where
  record : RefreshRecord
  ttl : Option Int
deriving DecidableEq, Repr

/-- The Redis keyspace relevant to the engine, as an association list. -/
abbrev Store := List (String × Entry)

namespace Store

def lookup : Store → String → Option Entry
  | [], _ => none
  | (k, e) :: rest, key => if k = key then some e else lookup rest key

def erase : Store → String → Store
  | [], _ => []
  | (k, e) :: rest, key =>
      if k = key then erase rest key else (k, e) :: erase rest key

/-- Replace (or insert) the entry at `k`. -/
def set (st : Store) (k : String) (e : Entry) : Store :=
  (k, e) :: st.erase k

/-- HSET of both fields: an existing key keeps its TTL, a fresh key is
created with no TTL. -/
def hset (st : Store) (k : String) (r : RefreshRecord) : Store :=
  match st.lookup k with
  | some e => st.set k ⟨r, e.ttl⟩
  | none => st.set k ⟨r, none⟩

/-- EXPIRE: attaches a TTL to an existing key; a missing key is untouched. -/
def expire (st : Store) (k : String) (t : Int) : Store :=
  match st.lookup k with
  | some e => st.set k ⟨e.record, some t⟩
  | none => st

/-- DEL. -/
def del (st : Store) (k : String) : Store :=
  st.erase k

/-- EXISTS, as a Bool (Go compares the integer reply with 0). -/
def existsKey (st : Store) (k : String) : Bool :=
  (st.lookup k).isSome

/-- HGET of the `user_id` field; `none` is the redis.Nil reply. -/
def hgetUserId (st : Store) (k : String) : Option String :=
  (st.lookup k).map fun e => e.record.user_id

end Store

/-- sha256Hex from tokenService.go, modelled as a deterministic injective
encoding of its input (the claims depend only on determinism of the
digest). -/
def sha256Hex (s : String) : String :=
  "sha256:" ++ s

/-- redisKey from tokenService.go. -/
def redisKey (hash : String) : String :=
  "refresh:th:" ++ hash

/-- Digest-then-key composition used on every raw refresh secret. -/
def rawKey (raw : String) : String :=
  redisKey (sha256Hex raw)

/-- The claim set of an access token (tokenClaims in tokenService.go). -/
structure TokenClaims where
  uid : String
  typ : String
  jti : String
  issuedAt : Int
  expiresAt : Int
  notBefore : Int
deriving DecidableEq, Repr

/-- HS256 signing, modelled as a deterministic encoding of the claims with
the secret. -/
def signedStringHS256 (secret : String) (c : TokenClaims) : String :=
  "jwt:" ++ secret ++ ":" ++ c.uid ++ ":" ++ c.typ ++ ":" ++ c.jti ++ ":" ++
    toString c.issuedAt ++ ":" ++ toString c.expiresAt

/-- TokenService configuration (the rdb handle is replaced by explicit
store arguments on each operation). -/
structure TokenService where
  secret : String
  accessTTL : Int
  refreshTTL : Int
deriving DecidableEq, Repr

/-- NewTokenService: rejects a secret shorter than 32 bytes, then pings the
backend (`pingErr` is the outcome of the Ping call). -/
def NewTokenService (secret : String) (accessTTL refreshTTL : Int)
    (pingErr : Option String) : Except AuthErr TokenService :=
  if secret.utf8ByteSize < 32 then
    .error (ErrBadRequest.WithMessage "secret must be at least 32 bytes")
  else
    match pingErr with
    | some m => .error (ErrStorageError.WithMessage m)
    | none => .ok ⟨secret, accessTTL, refreshTTL⟩

/-- Oracle for one GenerateTokens call: entropy outcomes for the access jti
and the raw refresh secret, and the fault state of the signing call and of
the two store calls. -/
structure GenOracle where
  atJti : Except String String
  signErr : Option String
  rawRefresh : Except String String
  hsetErr : Option String
  expireErr : Option String
deriving Repr

/-- Go's five named return values of GenerateTokens / RotateRefresh, with
zero values on the error paths exactly as in the source. -/
structure TokenResult where
  accessToken : String
  refreshToken : String
  accessExp : Int
  refreshExp : Int
  err : Option AuthErr
deriving DecidableEq, Repr

/-- The `return "", "", time.Time{}, time.Time{}, e` shape. -/
def zeroResult (e : AuthErr) : TokenResult :=
  ⟨"", "", 0, 0, some e⟩

/-- GenerateTokens from tokenService.go, line for line: build and sign the
access claims, draw the raw refresh secret, HSET the record at the digest
key, then EXPIRE it.  A faulted HSET leaves the store unwritten; a faulted
EXPIRE leaves the HSET write in place (two separate commands in the
source). -/
def GenerateTokens (s : TokenService) (o : GenOracle) (now : Int)
    (st : Store) (userID : String) : Store × TokenResult :=
  let accessExp := now + s.accessTTL
  match o.atJti with
  | .error m => (st, zeroResult (ErrTokenGeneration.WithMessage m))
  | .ok atJti =>
    match o.signErr with
    | some m => (st, zeroResult (ErrTokenGeneration.WithMessage m))
    | none =>
      let accessClaims : TokenClaims :=
        ⟨userID, "access", atJti, now, accessExp, now⟩
      let signedAccess := signedStringHS256 s.secret accessClaims
      let refreshExp := now + s.refreshTTL
      match o.rawRefresh with
      | .error m => (st, zeroResult (ErrTokenGeneration.WithMessage m))
      | .ok rawRefresh =>
        let key := redisKey (sha256Hex rawRefresh)
        match o.hsetErr with
        | some m => (st, zeroResult (ErrStorageError.WithMessage m))
        | none =>
          let st1 := st.hset key ⟨userID, now⟩
          match o.expireErr with
          | some m => (st1, zeroResult (ErrStorageError.WithMessage m))
          | none =>
            let st2 := st1.expire key s.refreshTTL
            (st2, ⟨signedAccess, rawRefresh, accessExp, refreshExp, none⟩)

/-- Fault oracle for one ValidateRefresh call (EXISTS and HGET commands). -/
structure ValOracle where
  existsErr : Option String
  hgetErr : Option String
deriving Repr

/-- ValidateRefresh from tokenService.go.  Note the source checks
`err == redis.Nil || userID == ""` before `err != nil`, so a faulted HGET
(whose string result is the zero value "") also lands in the InvalidToken
branch; the model reproduces that order. -/
def ValidateRefresh (o : ValOracle) (st : Store) (rawRefresh : String) :
    Except AuthErr String :=
  let key := redisKey (sha256Hex rawRefresh)
  match o.existsErr with
  | some m => .error (ErrStorageError.WithMessage m)
  | none =>
    if st.existsKey key = false then .error ErrInvalidToken
    else
      -- HGET reply: (string result, isNil, fault)
      let hres : String × Bool × Option String :=
        match o.hgetErr with
        | some m => ("", false, some m)
        | none =>
          match st.hgetUserId key with
          | none => ("", true, none)
          | some uid => (uid, false, none)
      if hres.2.1 = true ∨ hres.1 = "" then .error ErrInvalidToken
      else
        match hres.2.2 with
        | some m => .error (ErrStorageError.WithMessage m)
        | none => .ok hres.1

/-- Outcome of the Lua rotate script: ok, or one of its two abort replies. -/
inductive ScriptRes where
  | okRes
  | oldNotFound
  | userMismatch
deriving DecidableEq, Repr

/-- rotateScript from tokenService.go, evaluated atomically: abort with
old_not_found if KEYS[1] is absent; abort with user_mismatch if ARGV[1] is
non-empty and differs from the stored user_id; otherwise HSET the new
record at KEYS[2], EXPIRE it with ARGV[3], and DEL KEYS[1]. -/
def rotateScript (st : Store) (oldKey newKey : String) (uidArg : String)
    (issuedAtArg : Int) (ttlArg : Int) : Store × ScriptRes :=
  if st.existsKey oldKey = false then (st, .oldNotFound)
  else
    let uid := st.hgetUserId oldKey
    if uidArg ≠ "" ∧ uid ≠ some uidArg then (st, .userMismatch)
    else
      let st1 := st.hset newKey ⟨uidArg, issuedAtArg⟩
      let st2 := st1.expire newKey ttlArg
      let st3 := st2.del oldKey
      (st3, .okRes)

/-- The redis error string carried by `cmd.Err()` for each script outcome
(a Lua `\x7berr=...\x7d` table surfaces as an error whose message is the
table's string). -/
def scriptErrString : ScriptRes → Option String
  | .okRes => none
  | .oldNotFound => some "old_not_found"
  | .userMismatch => some "user_mismatch"

/-- Oracle for one RotateRefresh call: the oracles of its two sub-calls,
the fault state of the EVAL round-trip itself (a faulted EVAL is modelled
as the script not having executed), and the fault state of the best-effort
rollback DEL (whose error the source discards). -/
structure RotOracle where
  val : ValOracle
  gen : GenOracle
  evalErr : Option String
  rollbackErr : Option String
deriving Repr

/-- The best-effort `_ = s.rdb.Del(ctx, newKey).Err()` rollback: on a
fault the key is left in place and the error ignored. -/
def rollbackDel (o : RotOracle) (st : Store) (k : String) : Store :=
  match o.rollbackErr with
  | some _ => st
  | none => st.del k

/-- Everything RotateRefresh does before the EVAL of the rotate script:
ValidateRefresh on the old raw secret, the fast-path owner check, then the
full GenerateTokens call (which both signs the new access token and writes
the new refresh record).  Returns the store as it stands at the moment the
script is invoked, plus the validated owner and the generated values. -/
def rotatePhase1 (s : TokenService) (o : RotOracle) (now : Int) (st : Store)
    (oldRaw expectedUserID : String) :
    Store × Except AuthErr (String × TokenResult) :=
  match ValidateRefresh o.val st oldRaw with
  | .error e => (st, .error e)
  | .ok userID =>
    if expectedUserID ≠ "" ∧ userID ≠ expectedUserID then
      (st, .error ErrInvalidToken)
    else
      let (st1, gen) := GenerateTokens s o.gen now st userID
      match gen.err with
      | some e => (st1, .error e)
      | none => (st1, .ok (userID, gen))

/-- The error mapping after the EVAL: both script aborts are matched by
their error strings and collapsed to ErrInvalidToken after the rollback
DEL; any other EVAL error surfaces as StorageError. -/
def rotateFinish (o : RotOracle) (st1 : Store) (newKey : String)
    (cmdErr : Option String) (gen : TokenResult) : Store × TokenResult :=
  match cmdErr with
  | some m =>
    let st2 := rollbackDel o st1 newKey
    if m = "ERR old_not_found" ∨ m = "old_not_found" then
      (st2, zeroResult ErrInvalidToken)
    else if m = "ERR user_mismatch" ∨ m = "user_mismatch" then
      (st2, zeroResult ErrInvalidToken)
    else (st2, zeroResult (ErrStorageError.WithMessage m))
  | none =>
    (st1, ⟨gen.accessToken, gen.refreshToken, gen.accessExp, gen.refreshExp,
      none⟩)

/-- RotateRefresh from tokenService.go: validate the old secret, apply the
fast-path owner check, run the full GenerateTokens, then EVAL the atomic
rotate script on the old and new digest keys and map its outcome.  The
source reads the clock twice (once in RotateRefresh, once inside
GenerateTokens); both reads are modelled by `now`. -/
def RotateRefresh (s : TokenService) (o : RotOracle) (now : Int) (st : Store)
    (oldRaw expectedUserID : String) : Store × TokenResult :=
  match rotatePhase1 s o now st oldRaw expectedUserID with
  | (st1, .error e) => (st1, zeroResult e)
  | (st1, .ok (userID, gen)) =>
    let oldKey := redisKey (sha256Hex oldRaw)
    let newKey := redisKey (sha256Hex gen.refreshToken)
    match o.evalErr with
    | some m => rotateFinish o st1 newKey (some m) gen
    | none =>
      let (st2, res) := rotateScript st1 oldKey newKey userID now s.refreshTTL
      rotateFinish o st2 newKey (scriptErrString res) gen

/-- RevokeRefreshByRaw from tokenService.go: one unconditional DEL on the
digest key; only a backend fault (`delErr`) produces an error. -/
def RevokeRefreshByRaw (delErr : Option String) (st : Store) (raw : String) :
    Store × Option AuthErr :=
  let key := redisKey (sha256Hex raw)
  match delErr with
  | some m => (st, some (ErrStorage.WithMessage m))
  | none => (st.del key, none)

/-- RefreshRequest message (refresh_token, expected_user_id). -/
structure RefreshRequest where
  refreshToken : String
  expectedUserId : String
deriving DecidableEq, Repr

/-- TokenResponse message as built by the RPC layer. -/
structure TokenResponse where
  accessToken : String
  refreshToken : String
  accessExpiresIn : Int
  refreshExpiresIn : Int
  userId : String
deriving DecidableEq, Repr

namespace Rpc

/-- The Refresh RPC handler from internal/rpc (cmd/server sources): calls
RotateRefresh and, on success, builds the response with
`UserId: req.ExpectedUserId` and the two `time.Until` durations
(`nowResp` is the clock read of the response construction). -/
def Refresh (s : TokenService) (o : RotOracle) (now nowResp : Int)
    (st : Store) (req : RefreshRequest) :
    Store × Except AuthErr TokenResponse :=
  let (st1, r) := RotateRefresh s o now st req.refreshToken req.expectedUserId
  match r.err with
  | some e => (st1, .error e)
  | none =>
    (st1, .ok ⟨r.accessToken, r.refreshToken, r.accessExp - nowResp,
      r.refreshExp - nowResp, req.expectedUserId⟩)

end Rpc

/-
Concurrent model of two interleaved RotateRefresh calls, at the granularity
of the individual Redis commands of one call (the serialization points the
backend provides).  Purely local computation (jti/secret generation,
signing, the fast-path comparison) is folded into the adjacent command
step, which is interleaving-equivalent since it does not touch the store.
The model takes the fault-free oracle, matching the setting of the
concurrency claim; the per-call raw new secret and clock read are fixed
parameters of the call.
-/

/-- The per-call parameters of one concurrent RotateRefresh call. -/
structure RotCallParams where
  expected : String
  rawNew : String
  now : Int
deriving Repr

/-- The control state of one in-flight RotateRefresh call.  `pc` counts the
Redis commands issued so far (0 EXISTS, 1 HGET, 2 HSET, 3 EXPIRE, 4 EVAL,
5 rollback DEL, 99 returned); `uid` is the owner read by ValidateRefresh;
`res` is `some none` once the call returned success and `some (some e)`
once it returned the error `e`. -/
structure Proc where
  pc : Nat
  uid : String
  res : Option (Option AuthErr)
deriving DecidableEq, Repr

/-- The initial control state of a call. -/
def Proc.start : Proc :=
  ⟨0, "", none⟩

/-- One atomic step of a RotateRefresh call against the shared store,
following tokenService.go with the fault-free oracle. -/
def stepRot (s : TokenService) (oldRaw : String) (p : RotCallParams)
    (q : Proc) (st : Store) : Proc × Store :=
  let oldKey := redisKey (sha256Hex oldRaw)
  let newKey := redisKey (sha256Hex p.rawNew)
  match q.pc with
  | 0 =>
    -- EXISTS oldKey (ValidateRefresh)
    if st.existsKey oldKey then ({ q with pc := 1 }, st)
    else ({ q with pc := 99, res := some (some ErrInvalidToken) }, st)
  | 1 =>
    -- HGET oldKey user_id, the empty-owner check, and the engine's
    -- fast-path owner check (local given the reply)
    (match st.hgetUserId oldKey with
     | none => ({ q with pc := 99, res := some (some ErrInvalidToken) }, st)
     | some uid =>
       if uid = "" then
         ({ q with pc := 99, res := some (some ErrInvalidToken) }, st)
       else if p.expected ≠ "" ∧ uid ≠ p.expected then
         ({ q with pc := 99, res := some (some ErrInvalidToken) }, st)
       else ({ q with pc := 2, uid := uid }, st))
  | 2 =>
    -- HSET newKey (GenerateTokens)
    ({ q with pc := 3 }, st.hset newKey ⟨q.uid, p.now⟩)
  | 3 =>
    -- EXPIRE newKey (GenerateTokens)
    ({ q with pc := 4 }, st.expire newKey s.refreshTTL)
  | 4 =>
    -- EVAL of the atomic rotate script
    (match rotateScript st oldKey newKey q.uid p.now s.refreshTTL with
     | (st2, .okRes) => ({ q with pc := 99, res := some none }, st2)
     | (st2, _) => ({ q with pc := 5 }, st2))
  | 5 =>
    -- rollback DEL newKey, then return InvalidToken (both script aborts
    -- map to it)
    ({ q with pc := 99, res := some (some ErrInvalidToken) }, st.del newKey)
  | _ => (q, st)

/-- The joint state of two concurrent calls. -/
structure ConcState where
  store : Store
  q1 : Proc
  q2 : Proc
deriving Repr

/-- Run one scheduled step: `true` steps call 1, `false` steps call 2. -/
def stepSched (s : TokenService) (oldRaw : String) (p1 p2 : RotCallParams)
    (c : ConcState) (who : Bool) : ConcState :=
  if who then
    let (q1, st) := stepRot s oldRaw p1 c.q1 c.store
    ⟨st, q1, c.q2⟩
  else
    let (q2, st) := stepRot s oldRaw p2 c.q2 c.store
    ⟨st, c.q1, q2⟩

/-- Run a whole schedule from a joint state. -/
def runSched (s : TokenService) (oldRaw : String) (p1 p2 : RotCallParams)
    (c : ConcState) : List Bool → ConcState
  | [] => c
  | who :: rest => runSched s oldRaw p1 p2 (stepSched s oldRaw p1 p2 c who) rest

/-- A call has committed the atomic rotation and returned success. -/
def committed (q : Proc) : Prop :=
  q.res = some none

/-- A call has returned the InvalidToken error. -/
def failedInvalid (q : Proc) : Prop :=
  q.res = some (some ErrInvalidToken)

/-
Store lemmas.
-/

namespace Store

theorem lookup_erase_self (st : Store) (k : String) :
    (st.erase k).lookup k = none := by
  induction st with
  | nil => rfl
  | cons hd tl ih =>
    obtain ⟨k', e⟩ := hd
    by_cases h : k' = k
    · simp [Store.erase, h, ih]
    · simp [Store.erase, Store.lookup, h, ih]

theorem lookup_erase_ne (st : Store) (k key : String) (h : key ≠ k) :
    (st.erase k).lookup key = st.lookup key := by
  induction st with
  | nil => rfl
  | cons hd tl ih =>
    obtain ⟨k', e⟩ := hd
    by_cases hk : k' = k
    · subst hk
      simp [Store.erase, Store.lookup, Ne.symm h, ih]
    · by_cases hk2 : k' = key
      · simp [Store.erase, Store.lookup, hk, hk2, h]
      · simp [Store.erase, Store.lookup, hk, hk2, ih]

theorem erase_erase (st : Store) (k : String) :
    (st.erase k).erase k = st.erase k := by
  induction st with
  | nil => rfl
  | cons hd tl ih =>
    obtain ⟨k', e⟩ := hd
    by_cases h : k' = k
    · simp [Store.erase, h, ih]
    · simp [Store.erase, h, ih]

theorem lookup_set_self (st : Store) (k : String) (e : Entry) :
    (st.set k e).lookup k = some e := by
  simp [Store.set, Store.lookup]

theorem lookup_set_ne (st : Store) (k key : String) (e : Entry)
    (h : key ≠ k) :
    (st.set k e).lookup key = st.lookup key := by
  simp [Store.set, Store.lookup, Ne.symm h, lookup_erase_ne st k key h]

/-- The TTL currently attached to a key (none when the key is absent or
persistent). -/
def ttlOf (st : Store) (k : String) : Option Int :=
  match st.lookup k with
  | some e => e.ttl
  | none => none

theorem lookup_hset_self (st : Store) (k : String) (r : RefreshRecord) :
    (st.hset k r).lookup k = some ⟨r, st.ttlOf k⟩ := by
  unfold Store.hset Store.ttlOf
  cases h : st.lookup k <;> simp [h, lookup_set_self]

theorem lookup_hset_ne (st : Store) (k key : String) (r : RefreshRecord)
    (h : key ≠ k) :
    (st.hset k r).lookup key = st.lookup key := by
  unfold Store.hset
  cases hl : st.lookup k <;> simp [hl, lookup_set_ne st k key _ h]

theorem lookup_expire_self (st : Store) (k : String) (t : Int) (e : Entry)
    (h : st.lookup k = some e) :
    (st.expire k t).lookup k = some ⟨e.record, some t⟩ := by
  unfold Store.expire
  simp [h, lookup_set_self]

theorem lookup_expire_ne (st : Store) (k key : String) (t : Int)
    (h : key ≠ k) :
    (st.expire k t).lookup key = st.lookup key := by
  unfold Store.expire
  cases hl : st.lookup k <;> simp [hl, lookup_set_ne st k key _ h]

theorem lookup_del_self (st : Store) (k : String) :
    (st.del k).lookup k = none :=
  lookup_erase_self st k

theorem lookup_del_ne (st : Store) (k key : String) (h : key ≠ k) :
    (st.del k).lookup key = st.lookup key :=
  lookup_erase_ne st k key h

end Store

/-
Key lemmas: the digest-to-key mapping is injective in the model, so
distinct raw secrets occupy distinct store keys.
-/

theorem string_append_left_cancel (p a b : String)
    (h : p ++ a = p ++ b) : a = b := by
  have hd : (p ++ a).data = (p ++ b).data := by rw [h]
  simp [String.data_append] at hd
  exact String.ext hd

theorem rawKey_inj (a b : String) (h : rawKey a = rawKey b) : a = b := by
  unfold rawKey redisKey sha256Hex at h
  exact string_append_left_cancel _ _ _
    (string_append_left_cancel _ _ _ h)

/-
Concrete fixtures used by witnesses and counterexamples.
-/

/-- A 32-byte signing secret. -/
def fxSecret : String := "0123456789abcdef0123456789abcdef"

/-- A service with accessTTL = 5 minutes, refreshTTL = 7 days (seconds),
as configured by the RPC layer. -/
def fxSvc : TokenService := ⟨fxSecret, 300, 604800⟩

/-- Fault-free ValidateRefresh oracle. -/
def cleanVal : ValOracle := ⟨none, none⟩

/-- Fault-free GenerateTokens oracle with fixed entropy outcomes. -/
def cleanGen : GenOracle := ⟨.ok "jti1", none, .ok "newraw1", none, none⟩

/-- Fault-free RotateRefresh oracle. -/
def cleanRot : RotOracle := ⟨cleanVal, cleanGen, none, none⟩

/-- The raw refresh secret of the pre-existing record. -/
def fxOld : String := "oldraw"

/-- A store holding one refresh record owned by "u1". -/
def fxStore : Store := [(rawKey fxOld, ⟨⟨"u1", 0⟩, some 604800⟩)]

/-- A generated-values fixture for exercising the post-EVAL handling. -/
def zeroTokensFx : TokenResult := ⟨"at1", "newraw1", 1300, 605800, none⟩

/-
Claim theorems.
-/

/-- C7: constructing the token service with a secret shorter than 32 bytes
fails at construction time with the bad-request error before any token can
be issued; with a secret of at least 32 bytes and a reachable backend
(Ping succeeds) construction returns the service. -/
theorem C7_secret_length_gate (secret : String) (accessTTL refreshTTL : Int)
    (pingErr : Option String) :
    (secret.utf8ByteSize < 32 →
      NewTokenService secret accessTTL refreshTTL pingErr =
        .error (ErrBadRequest.WithMessage "secret must be at least 32 bytes"))
    ∧ (32 ≤ secret.utf8ByteSize →
      NewTokenService secret accessTTL refreshTTL none =
        .ok ⟨secret, accessTTL, refreshTTL⟩) := by
  constructor
  · intro h
    simp [NewTokenService, h]
  · intro h
    simp [NewTokenService, Nat.not_lt_of_le h]

/-- C7 witness: a 20-byte secret is rejected, the fixture 32-byte secret is
accepted. -/
theorem C7_secret_length_gate_w :
    NewTokenService "aaaaaaaaaaaaaaaaaaaa" 300 604800 none =
      .error (ErrBadRequest.WithMessage "secret must be at least 32 bytes")
    ∧ NewTokenService fxSecret 300 604800 none = .ok ⟨fxSecret, 300, 604800⟩ :=
  ⟨(C7_secret_length_gate "aaaaaaaaaaaaaaaaaaaa" 300 604800 none).1 (by decide),
   (C7_secret_length_gate fxSecret 300 604800 none).2 (by decide)⟩

/-- C8: Revoke is idempotent.  Against a fault-free backend the first call
succeeds on any store (a missing record included), leaves no record at the
raw secret's digest key, and a second call on the resulting store succeeds
and changes nothing; and Revoke reports an error exactly when the DEL
command itself faults. -/
theorem C8_revoke_idempotent (delErr : Option String) (st : Store)
    (raw : String) :
    (RevokeRefreshByRaw none st raw).2 = none
    ∧ (RevokeRefreshByRaw none st raw).1.lookup (rawKey raw) = none
    ∧ RevokeRefreshByRaw none (RevokeRefreshByRaw none st raw).1 raw =
        ((RevokeRefreshByRaw none st raw).1, none)
    ∧ (RevokeRefreshByRaw delErr st raw).2.isSome = delErr.isSome := by
  refine ⟨rfl, ?_, ?_, ?_⟩
  · exact Store.lookup_del_self st (rawKey raw)
  · show ((st.del (rawKey raw)).del (rawKey raw), _) = (st.del (rawKey raw), _)
    rw [Store.del, Store.del, Store.erase_erase]
  · cases delErr <;> rfl

/-- C9: a successful Refresh RPC response carries the request's
expected_user_id (the empty string when none was supplied) as its user_id
field, never the owner read from the rotated record. -/
theorem C9_refresh_response_user_id (s : TokenService) (o : RotOracle)
    (now nowResp : Int) (st : Store) (req : RefreshRequest) :
    (((Rpc.Refresh s o now nowResp st req).2.toOption.map
        TokenResponse.userId).getD req.expectedUserId) =
      req.expectedUserId := by
  unfold Rpc.Refresh
  rcases hR : RotateRefresh s o now st req.refreshToken req.expectedUserId
    with ⟨st1, r⟩
  cases hE : r.err <;> simp [hE, Except.toOption]

/-- C4: both abort replies of the atomic rotation unit, old_not_found and
user_mismatch, are mapped by the engine's post-EVAL handling to the same
InvalidToken error (after the same rollback DEL), so the returned
classification cannot distinguish the two causes. -/
theorem C4_abort_mapping (o : RotOracle) (st : Store) (newKey : String)
    (gen : TokenResult) (r : ScriptRes)
    (h : r = ScriptRes.oldNotFound ∨ r = ScriptRes.userMismatch) :
    (rotateFinish o st newKey (scriptErrString r) gen).2 =
      zeroResult ErrInvalidToken
    ∧ rotateFinish o st newKey (scriptErrString ScriptRes.oldNotFound) gen =
        rotateFinish o st newKey (scriptErrString ScriptRes.userMismatch) gen := by
  refine ⟨?_, ?_⟩
  · rcases h with h | h <;> subst h <;> simp [rotateFinish, scriptErrString]
  · simp [rotateFinish, scriptErrString]

/-- C4 witness at a concrete abort. -/
theorem C4_abort_mapping_w :
    (rotateFinish cleanRot fxStore (rawKey "newraw1")
        (scriptErrString ScriptRes.oldNotFound) zeroTokensFx).2 =
      zeroResult ErrInvalidToken
    ∧ rotateFinish cleanRot fxStore (rawKey "newraw1")
        (scriptErrString ScriptRes.oldNotFound) zeroTokensFx =
      rotateFinish cleanRot fxStore (rawKey "newraw1")
        (scriptErrString ScriptRes.userMismatch) zeroTokensFx :=
  C4_abort_mapping cleanRot fxStore (rawKey "newraw1") zeroTokensFx
    ScriptRes.oldNotFound (Or.inl rfl)

theorem rawKey_def (raw : String) : redisKey (sha256Hex raw) = rawKey raw :=
  rfl

/-- C5: when a live record's owner differs from a non-empty expectedOwner,
RotateRefresh fails with InvalidToken on the fast path and returns the
store exactly as it was: the original record is untouched and no new
record was created. -/
theorem C5_owner_mismatch_unchanged (s : TokenService) (o : RotOracle)
    (now : Int) (st : Store) (oldRaw expected owner : String) (e : Entry)
    (hv1 : o.val.existsErr = none) (hv2 : o.val.hgetErr = none)
    (hst : st.lookup (rawKey oldRaw) = some e)
    (howner : e.record.user_id = owner)
    (hne : expected ≠ "") (hdiff : owner ≠ expected) :
    RotateRefresh s o now st oldRaw expected =
      (st, zeroResult ErrInvalidToken) := by
  have hval : ValidateRefresh o.val st oldRaw =
      (if owner = "" then .error ErrInvalidToken else .ok owner) := by
    unfold ValidateRefresh
    rw [hv1]
    simp only [rawKey_def, Store.existsKey, Store.hgetUserId, hst, hv2,
      Option.isSome_some, Option.map_some]
    by_cases h0 : owner = "" <;> simp [howner, h0]
  unfold RotateRefresh rotatePhase1
  rw [hval]
  by_cases h0 : owner = ""
  · simp [h0]
  · simp [h0, hne, hdiff]

/-- C5 witness: owner "u1", expectedOwner "u2". -/
theorem C5_owner_mismatch_unchanged_w :
    RotateRefresh fxSvc cleanRot 1000 fxStore fxOld "u2" =
      (fxStore, zeroResult ErrInvalidToken) :=
  C5_owner_mismatch_unchanged fxSvc cleanRot 1000 fxStore fxOld "u2" "u1"
    ⟨⟨"u1", 0⟩, some 604800⟩ rfl rfl rfl rfl (by decide) (by decide)

/-- Whether an entropy-source outcome succeeded. -/
def entropyOk : Except String String → Bool
  | .ok _ => true
  | .error _ => false

/-- Whether an error value is of one of the two internal classes the spec
allows for a failed Issue: TokenGeneration or StorageError. -/
def errClassInternal : Option AuthErr → Bool
  | some e => e.cls = ErrClass.tokenGeneration ∨ e.cls = ErrClass.storageError
  | none => false

/-- C6: if any step of GenerateTokens after the access token is signed
fails (refresh-secret entropy, the HSET record write, or the EXPIRE
TTL-set), the call returns an error classified TokenGeneration or
StorageError and returns the Go zero values: the signed access token and
the raw refresh secret are not handed to the caller. -/
theorem C6_partial_failure_discards_tokens (s : TokenService)
    (o : GenOracle) (now : Int) (st : Store) (userID j : String)
    (hj : o.atJti = .ok j) (hs : o.signErr = none)
    (hfail : entropyOk o.rawRefresh = false ∨ o.hsetErr ≠ none ∨
      o.expireErr ≠ none) :
    errClassInternal (GenerateTokens s o now st userID).2.err = true
    ∧ (GenerateTokens s o now st userID).2.accessToken = ""
    ∧ (GenerateTokens s o now st userID).2.refreshToken = "" := by
  unfold GenerateTokens
  rw [hj, hs]
  cases hr : o.rawRefresh with
  | error m => simp [zeroResult, errClassInternal, ErrTokenGeneration,
      AuthErr.WithMessage]
  | ok raw =>
    cases hh : o.hsetErr with
    | some m => simp [zeroResult, errClassInternal, ErrStorageError,
        AuthErr.WithMessage]
    | none =>
      cases he : o.expireErr with
      | some m => simp [zeroResult, errClassInternal, ErrStorageError,
          AuthErr.WithMessage]
      | none =>
        rcases hfail with h | h | h
        · rw [hr] at h
          simp [entropyOk] at h
        · exact absurd hh h
        · exact absurd he h

/-- C6 witness: a faulted EXPIRE after a successful signing. -/
theorem C6_partial_failure_discards_tokens_w :
    errClassInternal
      (GenerateTokens fxSvc ⟨.ok "jti1", none, .ok "newraw1", none,
        some "io timeout"⟩ 1000 fxStore "u1").2.err = true
    ∧ (GenerateTokens fxSvc ⟨.ok "jti1", none, .ok "newraw1", none,
        some "io timeout"⟩ 1000 fxStore "u1").2.accessToken = ""
    ∧ (GenerateTokens fxSvc ⟨.ok "jti1", none, .ok "newraw1", none,
        some "io timeout"⟩ 1000 fxStore "u1").2.refreshToken = "" :=
  C6_partial_failure_discards_tokens fxSvc
    ⟨.ok "jti1", none, .ok "newraw1", none, some "io timeout"⟩ 1000 fxStore
    "u1" "jti1" rfl rfl (Or.inr (Or.inr (by decide)))

/-
Helper lemmas: the success paths of ValidateRefresh and GenerateTokens.
-/

theorem ValidateRefresh_ok (o : ValOracle) (st : Store) (raw owner : String)
    (e : Entry) (hv1 : o.existsErr = none) (hv2 : o.hgetErr = none)
    (hst : st.lookup (rawKey raw) = some e)
    (howner : e.record.user_id = owner) (h0 : owner ≠ "") :
    ValidateRefresh o st raw = .ok owner := by
  unfold ValidateRefresh
  rw [hv1]
  simp only [rawKey_def, Store.existsKey, Store.hgetUserId, hst, hv2,
    Option.isSome_some, Option.map_some]
  simp [howner, h0]

/-- The store written by the Issue logic for owner `u` and raw secret
`rawNew` at time `now`: the HSET record followed by the EXPIRE TTL. -/
def issuePhaseStore (s : TokenService) (st : Store) (u rawNew : String)
    (now : Int) : Store :=
  (st.hset (rawKey rawNew) ⟨u, now⟩).expire (rawKey rawNew) s.refreshTTL

/-- The values returned by the Issue logic's success path. -/
def issuePhaseResult (s : TokenService) (u j rawNew : String) (now : Int) :
    TokenResult :=
  ⟨signedStringHS256 s.secret ⟨u, "access", j, now, now + s.accessTTL, now⟩,
    rawNew, now + s.accessTTL, now + s.refreshTTL, none⟩

theorem GenerateTokens_clean (s : TokenService) (o : GenOracle) (now : Int)
    (st : Store) (u j rawNew : String)
    (h1 : o.atJti = .ok j) (h2 : o.signErr = none)
    (h3 : o.rawRefresh = .ok rawNew) (h4 : o.hsetErr = none)
    (h5 : o.expireErr = none) :
    GenerateTokens s o now st u =
      (issuePhaseStore s st u rawNew now, issuePhaseResult s u j rawNew now) := by
  unfold GenerateTokens
  rw [h1, h2, h3, h4, h5]
  rfl

theorem rotatePhase1_clean (s : TokenService) (o : RotOracle) (now : Int)
    (st : Store) (oldRaw u j rawNew : String) (e : Entry)
    (hv1 : o.val.existsErr = none) (hv2 : o.val.hgetErr = none)
    (hg1 : o.gen.atJti = .ok j) (hg2 : o.gen.signErr = none)
    (hg3 : o.gen.rawRefresh = .ok rawNew) (hg4 : o.gen.hsetErr = none)
    (hg5 : o.gen.expireErr = none)
    (hst : st.lookup (rawKey oldRaw) = some e)
    (hu : e.record.user_id = u) (hne : u ≠ "")
    (expected : String) (hexp : expected = "" ∨ expected = u) :
    rotatePhase1 s o now st oldRaw expected =
      (issuePhaseStore s st u rawNew now,
        .ok (u, issuePhaseResult s u j rawNew now)) := by
  unfold rotatePhase1
  rw [ValidateRefresh_ok o.val st oldRaw u e hv1 hv2 hst hu hne]
  have hcond : ¬(expected ≠ "" ∧ u ≠ expected) := by
    rcases hexp with h | h <;> simp [h]
  simp [hcond,
    GenerateTokens_clean s o.gen now st u j rawNew hg1 hg2 hg3 hg4 hg5,
    issuePhaseResult]

/-- After the Issue phase, the atomic script on the old and new keys
commits: the old key is still present (whether or not it coincides with
the freshly written new key) and the stored owner matches the uid
argument, so neither abort fires. -/
theorem rotateScript_commits (s : TokenService) (st : Store)
    (oldRaw u rawNew : String) (now : Int) (e : Entry)
    (hst : st.lookup (rawKey oldRaw) = some e)
    (hu : e.record.user_id = u) (hne : u ≠ "") :
    (rotateScript (issuePhaseStore s st u rawNew now) (rawKey oldRaw)
      (rawKey rawNew) u now s.refreshTTL).2 = ScriptRes.okRes := by
  have hlook : (issuePhaseStore s st u rawNew now).lookup (rawKey oldRaw) =
      some ⟨⟨u, now⟩, some s.refreshTTL⟩ ∨
      (issuePhaseStore s st u rawNew now).lookup (rawKey oldRaw) = some e := by
    by_cases hk : rawKey oldRaw = rawKey rawNew
    · left
      have ha := Store.lookup_hset_self st (rawKey rawNew) ⟨u, now⟩
      have hb := Store.lookup_expire_self (st.hset (rawKey rawNew) ⟨u, now⟩)
        (rawKey rawNew) s.refreshTTL _ ha
      rw [issuePhaseStore, hk, hb]
    · right
      rw [issuePhaseStore,
        Store.lookup_expire_ne _ _ _ _ hk,
        Store.lookup_hset_ne _ _ _ _ hk, hst]
  unfold rotateScript
  rcases hlook with h | h <;>
    simp [Store.existsKey, Store.hgetUserId, h, hu, hne]

/-- C10: with an empty expectedOwner, the owner check never rejects: for
any live record (present, non-empty owner), a fault-free
RotateRefresh(raw, "") succeeds no matter which owner the record belongs
to. -/
theorem C10_empty_expected_owner (s : TokenService) (o : RotOracle)
    (now : Int) (st : Store) (oldRaw u j rawNew : String) (e : Entry)
    (hv1 : o.val.existsErr = none) (hv2 : o.val.hgetErr = none)
    (hg1 : o.gen.atJti = .ok j) (hg2 : o.gen.signErr = none)
    (hg3 : o.gen.rawRefresh = .ok rawNew) (hg4 : o.gen.hsetErr = none)
    (hg5 : o.gen.expireErr = none) (he : o.evalErr = none)
    (hst : st.lookup (rawKey oldRaw) = some e)
    (hu : e.record.user_id = u) (hne : u ≠ "") :
    (RotateRefresh s o now st oldRaw "").2.err = none := by
  unfold RotateRefresh
  rw [rotatePhase1_clean s o now st oldRaw u j rawNew e hv1 hv2 hg1 hg2 hg3
    hg4 hg5 hst hu hne "" (Or.inl rfl), he]
  have hok := rotateScript_commits s st oldRaw u rawNew now e hst hu hne
  rcases hS : rotateScript (issuePhaseStore s st u rawNew now)
      (rawKey oldRaw) (rawKey rawNew) u now s.refreshTTL with ⟨st2, r⟩
  rw [hS] at hok
  simp only at hok
  subst hok
  simp [hS, rawKey_def, issuePhaseResult, rotateFinish, scriptErrString]

/-- C10 witness: the fixture record is owned by "u1", and rotation with an
empty expectedOwner succeeds. -/
theorem C10_empty_expected_owner_w :
    (RotateRefresh fxSvc cleanRot 1000 fxStore fxOld "").2.err = none :=
  C10_empty_expected_owner fxSvc cleanRot 1000 fxStore fxOld "u1" "jti1"
    "newraw1" ⟨⟨"u1", 0⟩, some 604800⟩ rfl rfl rfl rfl rfl rfl rfl rfl rfl
    rfl (by decide)

/-- C1 counterexample: on a concrete fault-free rotation that succeeds
end to end, the store at the moment the atomic script is invoked (the
first component of rotatePhase1) already contains the new refresh record
with its TTL, and the returned phase-1 values already contain the signed
access token — so the new record is written by the full Issue logic
before the primitive, and the access token is signed before the primitive
succeeds, contradicting the claimed ordering. -/
theorem C1_counterexample :
    (rotatePhase1 fxSvc cleanRot 1000 fxStore fxOld "").1.lookup
        (rawKey "newraw1") = some ⟨⟨"u1", 1000⟩, some 604800⟩
    ∧ (rotatePhase1 fxSvc cleanRot 1000 fxStore fxOld "").2 =
        Except.ok ("u1", issuePhaseResult fxSvc "u1" "jti1" "newraw1" 1000)
    ∧ (RotateRefresh fxSvc cleanRot 1000 fxStore fxOld "").2.err = none :=
  ⟨rfl, rfl, rfl⟩

/-- C1 amended: RotateRefresh validates the old secret first, but then
runs the full Issue logic — which both signs the new access token and
writes the new refresh record — before invoking the atomic script; the
script is evaluated against that post-Issue store and its outcome is
mapped afterwards. -/
theorem C1_amended_order (s : TokenService) (o : RotOracle) (now : Int)
    (st : Store) (oldRaw u j rawNew expected : String) (e : Entry)
    (hv1 : o.val.existsErr = none) (hv2 : o.val.hgetErr = none)
    (hg1 : o.gen.atJti = .ok j) (hg2 : o.gen.signErr = none)
    (hg3 : o.gen.rawRefresh = .ok rawNew) (hg4 : o.gen.hsetErr = none)
    (hg5 : o.gen.expireErr = none) (he : o.evalErr = none)
    (hst : st.lookup (rawKey oldRaw) = some e)
    (hu : e.record.user_id = u) (hne : u ≠ "")
    (hexp : expected = "" ∨ expected = u) :
    rotatePhase1 s o now st oldRaw expected =
      (issuePhaseStore s st u rawNew now,
        .ok (u, issuePhaseResult s u j rawNew now))
    ∧ (issuePhaseStore s st u rawNew now).lookup (rawKey rawNew) =
        some ⟨⟨u, now⟩, some s.refreshTTL⟩
    ∧ (issuePhaseResult s u j rawNew now).accessToken =
        signedStringHS256 s.secret ⟨u, "access", j, now, now + s.accessTTL, now⟩
    ∧ RotateRefresh s o now st oldRaw expected =
        rotateFinish o
          (rotateScript (issuePhaseStore s st u rawNew now) (rawKey oldRaw)
            (rawKey rawNew) u now s.refreshTTL).1
          (rawKey rawNew)
          (scriptErrString
            (rotateScript (issuePhaseStore s st u rawNew now) (rawKey oldRaw)
              (rawKey rawNew) u now s.refreshTTL).2)
          (issuePhaseResult s u j rawNew now) := by
  have hph := rotatePhase1_clean s o now st oldRaw u j rawNew e hv1 hv2 hg1
    hg2 hg3 hg4 hg5 hst hu hne expected hexp
  refine ⟨hph, ?_, rfl, ?_⟩
  · have ha := Store.lookup_hset_self st (rawKey rawNew) ⟨u, now⟩
    exact Store.lookup_expire_self _ _ _ _ ha
  · unfold RotateRefresh
    rw [hph, he]
    rcases hS : rotateScript (issuePhaseStore s st u rawNew now)
        (rawKey oldRaw) (rawKey rawNew) u now s.refreshTTL with ⟨st2, r⟩
    simp only [issuePhaseResult, rawKey_def] at hS ⊢
    rw [hS]

/-- C1 amended witness at the fixture rotation. -/
theorem C1_amended_order_w :
    rotatePhase1 fxSvc cleanRot 1000 fxStore fxOld "" =
      (issuePhaseStore fxSvc fxStore "u1" "newraw1" 1000,
        .ok ("u1", issuePhaseResult fxSvc "u1" "jti1" "newraw1" 1000))
    ∧ (issuePhaseStore fxSvc fxStore "u1" "newraw1" 1000).lookup
        (rawKey "newraw1") = some ⟨⟨"u1", 1000⟩, some 604800⟩
    ∧ (issuePhaseResult fxSvc "u1" "jti1" "newraw1" 1000).accessToken =
        signedStringHS256 fxSecret
          ⟨"u1", "access", "jti1", 1000, 1000 + 300, 1000⟩
    ∧ RotateRefresh fxSvc cleanRot 1000 fxStore fxOld "" =
        rotateFinish cleanRot
          (rotateScript (issuePhaseStore fxSvc fxStore "u1" "newraw1" 1000)
            (rawKey fxOld) (rawKey "newraw1") "u1" 1000 604800).1
          (rawKey "newraw1")
          (scriptErrString
            (rotateScript (issuePhaseStore fxSvc fxStore "u1" "newraw1" 1000)
              (rawKey fxOld) (rawKey "newraw1") "u1" 1000 604800).2)
          (issuePhaseResult fxSvc "u1" "jti1" "newraw1" 1000) :=
  C1_amended_order fxSvc cleanRot 1000 fxStore fxOld "u1" "jti1" "newraw1"
    "" ⟨⟨"u1", 0⟩, some 604800⟩ rfl rfl rfl rfl rfl rfl rfl rfl rfl rfl
    (by decide) (Or.inl rfl)

/-- C3 counterexample: a GenerateTokens call whose EXPIRE command faults
returns StorageError, yet leaves the freshly HSET record in the store
with no TTL attached — a reachable store state containing a refresh
record without a bounded TTL, contradicting the claimed invariant. -/
theorem C3_counterexample :
    (GenerateTokens fxSvc
        ⟨.ok "jti1", none, .ok "newraw1", none, some "io timeout"⟩ 1000
        fxStore "u1").2.err =
      some (ErrStorageError.WithMessage "io timeout")
    ∧ (GenerateTokens fxSvc
        ⟨.ok "jti1", none, .ok "newraw1", none, some "io timeout"⟩ 1000
        fxStore "u1").1.lookup (rawKey "newraw1") =
      some ⟨⟨"u1", 1000⟩, none⟩ :=
  ⟨rfl, rfl⟩

/-- C3 amended: on the fault-free path every record created by Issue
carries the full refresh TTL, and a committed rotation script leaves the
new record with the full TTL argument; but the write and the TTL-set in
Issue are two separate store commands, so a faulted TTL-set leaves the
record persisted without a TTL (reported as StorageError, per the
counterexample). -/
theorem C3_amended_ttl (s : TokenService) (o : GenOracle) (now : Int)
    (st : Store) (u j rawNew : String) (stScript : Store)
    (oldKey newKey uidArg : String) (tArg ttlArg : Int) (st2 : Store) :
    (o.atJti = .ok j → o.signErr = none → o.rawRefresh = .ok rawNew →
      o.hsetErr = none → o.expireErr = none →
      (GenerateTokens s o now st u).1.lookup (rawKey rawNew) =
        some ⟨⟨u, now⟩, some s.refreshTTL⟩)
    ∧ (rotateScript stScript oldKey newKey uidArg tArg ttlArg =
        (st2, ScriptRes.okRes) → newKey ≠ oldKey →
        st2.lookup newKey = some ⟨⟨uidArg, tArg⟩, some ttlArg⟩) := by
  constructor
  · intro h1 h2 h3 h4 h5
    rw [GenerateTokens_clean s o now st u j rawNew h1 h2 h3 h4 h5]
    have ha := Store.lookup_hset_self st (rawKey rawNew) ⟨u, now⟩
    exact Store.lookup_expire_self _ _ _ _ ha
  · intro h hne
    unfold rotateScript at h
    by_cases hex : stScript.existsKey oldKey = false
    · rw [if_pos hex] at h
      simp [Prod.ext_iff] at h
    · rw [if_neg hex] at h
      by_cases hm : uidArg ≠ "" ∧ stScript.hgetUserId oldKey ≠ some uidArg
      · rw [if_pos hm] at h
        simp [Prod.ext_iff] at h
      · rw [if_neg hm] at h
        injection h with hA hB
        rw [← hA, Store.lookup_del_ne _ _ _ hne]
        have hb := Store.lookup_hset_self stScript newKey ⟨uidArg, tArg⟩
        exact Store.lookup_expire_self _ _ _ _ hb

/-- C3 amended witness: the fixture Issue attaches the 604800-second TTL,
and a concrete committed script leaves the new record with the TTL. -/
theorem C3_amended_ttl_w :
    (GenerateTokens fxSvc cleanGen 1000 fxStore "u1").1.lookup
        (rawKey "newraw1") = some ⟨⟨"u1", 1000⟩, some 604800⟩
    ∧ (rotateScript fxStore (rawKey fxOld) (rawKey "newraw1") "u1" 1000
        604800).1.lookup (rawKey "newraw1") =
      some ⟨⟨"u1", 1000⟩, some 604800⟩ :=
  ⟨(C3_amended_ttl fxSvc cleanGen 1000 fxStore "u1" "jti1" "newraw1"
      fxStore (rawKey fxOld) (rawKey "newraw1") "u1" 1000 604800
      fxStore).1 rfl rfl rfl rfl rfl,
   (C3_amended_ttl fxSvc cleanGen 1000 fxStore "u1" "jti1" "newraw1"
      fxStore (rawKey fxOld) (rawKey "newraw1") "u1" 1000 604800
      (rotateScript fxStore (rawKey fxOld) (rawKey "newraw1") "u1" 1000
        604800).1).2 rfl (by decide)⟩

/-
The interleaving invariant for two concurrent rotations of the same raw
secret.  `procInv` constrains one call's control state against the shared
store; `GInv` ties the two calls together with the state of the old key.
-/

/-- Invariant of one in-flight call: what its program counter implies about
its local state and about its own new key in the store.  `otherC` is the
proposition that the other call has committed; it is forced whenever this
call has observed the old key to be gone. -/
def procInv (s : TokenService) (u : String) (p : RotCallParams)
    (Ki : String) (stc : Store) (otherC : Prop) (q : Proc) : Prop :=
  (q.pc = 0 ∨ q.pc = 1 ∨ q.pc = 2 ∨ q.pc = 3 ∨ q.pc = 4 ∨ q.pc = 5 ∨
    q.pc = 99)
  ∧ (q.pc = 0 ∨ q.pc = 1 → q.res = none ∧ stc.lookup Ki = none)
  ∧ (q.pc = 2 → q.res = none ∧ q.uid = u ∧ stc.lookup Ki = none)
  ∧ (q.pc = 3 → q.res = none ∧ q.uid = u ∧
      stc.lookup Ki = some ⟨⟨u, p.now⟩, none⟩)
  ∧ (q.pc = 4 → q.res = none ∧ q.uid = u ∧
      stc.lookup Ki = some ⟨⟨u, p.now⟩, some s.refreshTTL⟩)
  ∧ (q.pc = 5 → q.res = none ∧ q.uid = u ∧
      stc.lookup Ki = some ⟨⟨u, p.now⟩, some s.refreshTTL⟩ ∧ otherC)
  ∧ (q.pc = 99 →
      (q.res = some none ∧
        stc.lookup Ki = some ⟨⟨u, p.now⟩, some s.refreshTTL⟩)
      ∨ (q.res = some (some ErrInvalidToken) ∧ stc.lookup Ki = none ∧
          otherC))

theorem procInv_mono (s : TokenService) (u : String) (p : RotCallParams)
    (Ki : String) (st st' : Store) (oC oC' : Prop) (q : Proc)
    (hlook : st'.lookup Ki = st.lookup Ki) (hoc : oC → oC')
    (h : procInv s u p Ki st oC q) : procInv s u p Ki st' oC' q := by
  obtain ⟨hr, h01, h2, h3, h4, h5, h99⟩ := h
  refine ⟨hr, ?_, ?_, ?_, ?_, ?_, ?_⟩ <;> intro hpc
  · obtain ⟨a, b⟩ := h01 hpc
    exact ⟨a, by rw [hlook]; exact b⟩
  · obtain ⟨a, b, c⟩ := h2 hpc
    exact ⟨a, b, by rw [hlook]; exact c⟩
  · obtain ⟨a, b, c⟩ := h3 hpc
    exact ⟨a, b, by rw [hlook]; exact c⟩
  · obtain ⟨a, b, c⟩ := h4 hpc
    exact ⟨a, b, by rw [hlook]; exact c⟩
  · obtain ⟨a, b, c, d⟩ := h5 hpc
    exact ⟨a, b, by rw [hlook]; exact c, hoc d⟩
  · rcases h99 hpc with ⟨a, b⟩ | ⟨a, b, c⟩
    · exact Or.inl ⟨a, by rw [hlook]; exact b⟩
    · exact Or.inr ⟨a, by rw [hlook]; exact b, hoc c⟩

/-- Joint invariant of the two concurrent calls. -/
def GInv (s : TokenService) (oldRaw u : String) (E0 : Entry)
    (p1 p2 : RotCallParams) (c : ConcState) : Prop :=
  procInv s u p1 (rawKey p1.rawNew) c.store (committed c.q2) c.q1
  ∧ procInv s u p2 (rawKey p2.rawNew) c.store (committed c.q1) c.q2
  ∧ ((¬committed c.q1 ∧ ¬committed c.q2 ∧
      c.store.lookup (rawKey oldRaw) = some E0)
    ∨ ((committed c.q1 ∨ committed c.q2) ∧
      c.store.lookup (rawKey oldRaw) = none))
  ∧ ¬(committed c.q1 ∧ committed c.q2)

theorem GInv_swap (s : TokenService) (oldRaw u : String) (E0 : Entry)
    (p1 p2 : RotCallParams) (c : ConcState)
    (h : GInv s oldRaw u E0 p1 p2 c) :
    GInv s oldRaw u E0 p2 p1 ⟨c.store, c.q2, c.q1⟩ := by
  obtain ⟨h1, h2, hK, hB⟩ := h
  refine ⟨h2, h1, ?_, fun hc => hB ⟨hc.2, hc.1⟩⟩
  rcases hK with ⟨a, b, c'⟩ | ⟨a, b⟩
  · exact Or.inl ⟨b, a, c'⟩
  · exact Or.inr ⟨a.symm, b⟩

/-- One step of either call preserves the joint invariant (stated for the
stepping call `A` against the other call `B`; the scheduler applies it in
both orientations via `GInv_swap`). -/
theorem stepRot_preserves (s : TokenService) (oldRaw u : String)
    (E0 : Entry) (pA pB : RotCallParams) (st : Store) (qA qB : Proc)
    (hE0 : E0.record.user_id = u) (hu : u ≠ "")
    (hA : rawKey pA.rawNew ≠ rawKey oldRaw)
    (hB : rawKey pB.rawNew ≠ rawKey oldRaw)
    (hAB : rawKey pA.rawNew ≠ rawKey pB.rawNew)
    (heA : pA.expected = "" ∨ pA.expected = u)
    (hPA : procInv s u pA (rawKey pA.rawNew) st (committed qB) qA)
    (hPB : procInv s u pB (rawKey pB.rawNew) st (committed qA) qB)
    (hK : (¬committed qA ∧ ¬committed qB ∧
        st.lookup (rawKey oldRaw) = some E0)
      ∨ ((committed qA ∨ committed qB) ∧
        st.lookup (rawKey oldRaw) = none))
    (hBoth : ¬(committed qA ∧ committed qB)) :
    procInv s u pA (rawKey pA.rawNew) (stepRot s oldRaw pA qA st).2
        (committed qB) (stepRot s oldRaw pA qA st).1
    ∧ procInv s u pB (rawKey pB.rawNew) (stepRot s oldRaw pA qA st).2
        (committed (stepRot s oldRaw pA qA st).1) qB
    ∧ ((¬committed (stepRot s oldRaw pA qA st).1 ∧ ¬committed qB ∧
          (stepRot s oldRaw pA qA st).2.lookup (rawKey oldRaw) = some E0)
      ∨ ((committed (stepRot s oldRaw pA qA st).1 ∨ committed qB) ∧
          (stepRot s oldRaw pA qA st).2.lookup (rawKey oldRaw) = none))
    ∧ ¬(committed (stepRot s oldRaw pA qA st).1 ∧ committed qB) := by
  obtain ⟨hr, h01, h2, h3, h4, h5, h99⟩ := hPA
  rcases hr with hpc | hpc | hpc | hpc | hpc | hpc | hpc
  · -- pc = 0: EXISTS on the old key
    obtain ⟨hres, hKA⟩ := h01 (Or.inl hpc)
    have hncA : ¬ committed qA := by simp [committed, hres]
    rcases hK with ⟨hnc1, hnc2, hKsome⟩ | ⟨hcsome, hKnone⟩
    · have hstep : stepRot s oldRaw pA qA st = ({ qA with pc := 1 }, st) := by
        simp only [stepRot, hpc]
        simp [rawKey_def, Store.existsKey, hKsome]
      rw [hstep]
      refine ⟨?_, hPB, Or.inl ⟨hncA, hnc2, hKsome⟩, hBoth⟩
      unfold procInv
      refine ⟨by simp, fun _ => ⟨hres, hKA⟩, by simp, by simp, by simp,
        by simp, by simp⟩
    · have hcB : committed qB := by
        rcases hcsome with h | h
        · exact absurd h hncA
        · exact h
      have hstep : stepRot s oldRaw pA qA st =
          ({ qA with pc := 99, res := some (some ErrInvalidToken) }, st) := by
        simp only [stepRot, hpc]
        simp [rawKey_def, Store.existsKey, hKnone]
      rw [hstep]
      refine ⟨?_, ?_, Or.inr ⟨Or.inr hcB, hKnone⟩, ?_⟩
      · unfold procInv
        refine ⟨by simp, by simp, by simp, by simp, by simp, by simp,
          fun _ => Or.inr ⟨rfl, hKA, hcB⟩⟩
      · exact procInv_mono s u pB (rawKey pB.rawNew) st st _ _ qB rfl
          (fun h => absurd h hncA) hPB
      · intro hc
        rcases hc with ⟨hc1, _⟩
        simp [committed] at hc1
  · -- pc = 1: HGET, empty-owner check, fast-path owner check
    obtain ⟨hres, hKA⟩ := h01 (Or.inr hpc)
    have hncA : ¬ committed qA := by simp [committed, hres]
    rcases hK with ⟨hnc1, hnc2, hKsome⟩ | ⟨hcsome, hKnone⟩
    · have hgu : st.hgetUserId (rawKey oldRaw) = some u := by
        simp [Store.hgetUserId, hKsome, hE0]
      have hcond : ¬(pA.expected ≠ "" ∧ u ≠ pA.expected) := by
        rcases heA with h | h <;> simp [h]
      have hstep : stepRot s oldRaw pA qA st =
          ({ qA with pc := 2, uid := u }, st) := by
        simp only [stepRot, hpc]
        simp [rawKey_def, hgu, hu, hcond]
      rw [hstep]
      refine ⟨?_, hPB, Or.inl ⟨hncA, hnc2, hKsome⟩, hBoth⟩
      unfold procInv
      refine ⟨by simp, by simp, fun _ => ⟨hres, rfl, hKA⟩, by simp, by simp,
        by simp, by simp⟩
    · have hcB : committed qB := by
        rcases hcsome with h | h
        · exact absurd h hncA
        · exact h
      have hgu : st.hgetUserId (rawKey oldRaw) = none := by
        simp [Store.hgetUserId, hKnone]
      have hstep : stepRot s oldRaw pA qA st =
          ({ qA with pc := 99, res := some (some ErrInvalidToken) }, st) := by
        simp only [stepRot, hpc]
        simp [rawKey_def, hgu]
      rw [hstep]
      refine ⟨?_, ?_, Or.inr ⟨Or.inr hcB, hKnone⟩, ?_⟩
      · unfold procInv
        refine ⟨by simp, by simp, by simp, by simp, by simp, by simp,
          fun _ => Or.inr ⟨rfl, hKA, hcB⟩⟩
      · exact procInv_mono s u pB (rawKey pB.rawNew) st st _ _ qB rfl
          (fun h => absurd h hncA) hPB
      · intro hc
        rcases hc with ⟨hc1, _⟩
        simp [committed] at hc1
  · -- pc = 2: HSET of the new record
    obtain ⟨hres, huid, hKA⟩ := h2 hpc
    have hstep : stepRot s oldRaw pA qA st =
        ({ qA with pc := 3 },
          st.hset (rawKey pA.rawNew) ⟨qA.uid, pA.now⟩) := by
      simp only [stepRot, hpc]
      simp [rawKey_def]
    have httl : st.ttlOf (rawKey pA.rawNew) = none := by
      unfold Store.ttlOf
      rw [hKA]
    have hKA' : (st.hset (rawKey pA.rawNew) ⟨qA.uid, pA.now⟩).lookup
        (rawKey pA.rawNew) = some ⟨⟨u, pA.now⟩, none⟩ := by
      rw [Store.lookup_hset_self, httl, huid]
    have hKB' : (st.hset (rawKey pA.rawNew) ⟨qA.uid, pA.now⟩).lookup
        (rawKey pB.rawNew) = st.lookup (rawKey pB.rawNew) :=
      Store.lookup_hset_ne st _ _ _ (Ne.symm hAB)
    have hK' : (st.hset (rawKey pA.rawNew) ⟨qA.uid, pA.now⟩).lookup
        (rawKey oldRaw) = st.lookup (rawKey oldRaw) :=
      Store.lookup_hset_ne st _ _ _ (Ne.symm hA)
    rw [hstep]
    refine ⟨?_, ?_, ?_, hBoth⟩
    · unfold procInv
      refine ⟨by simp, by simp, by simp, fun _ => ⟨hres, huid, hKA'⟩,
        by simp, by simp, by simp⟩
    · exact procInv_mono s u pB (rawKey pB.rawNew) st _ _ _ qB hKB'
        (fun h => h) hPB
    · rcases hK with ⟨a, b, c'⟩ | ⟨a, b⟩
      · exact Or.inl ⟨a, b, by rw [hK']; exact c'⟩
      · exact Or.inr ⟨a, by rw [hK']; exact b⟩
  · -- pc = 3: EXPIRE of the new record
    obtain ⟨hres, huid, hKA⟩ := h3 hpc
    have hstep : stepRot s oldRaw pA qA st =
        ({ qA with pc := 4 },
          st.expire (rawKey pA.rawNew) s.refreshTTL) := by
      simp only [stepRot, hpc]
      simp [rawKey_def]
    have hKA' : (st.expire (rawKey pA.rawNew) s.refreshTTL).lookup
        (rawKey pA.rawNew) = some ⟨⟨u, pA.now⟩, some s.refreshTTL⟩ :=
      Store.lookup_expire_self st _ _ _ hKA
    have hKB' : (st.expire (rawKey pA.rawNew) s.refreshTTL).lookup
        (rawKey pB.rawNew) = st.lookup (rawKey pB.rawNew) :=
      Store.lookup_expire_ne st _ _ _ (Ne.symm hAB)
    have hK' : (st.expire (rawKey pA.rawNew) s.refreshTTL).lookup
        (rawKey oldRaw) = st.lookup (rawKey oldRaw) :=
      Store.lookup_expire_ne st _ _ _ (Ne.symm hA)
    rw [hstep]
    refine ⟨?_, ?_, ?_, hBoth⟩
    · unfold procInv
      refine ⟨by simp, by simp, by simp, by simp,
        fun _ => ⟨hres, huid, hKA'⟩, by simp, by simp⟩
    · exact procInv_mono s u pB (rawKey pB.rawNew) st _ _ _ qB hKB'
        (fun h => h) hPB
    · rcases hK with ⟨a, b, c'⟩ | ⟨a, b⟩
      · exact Or.inl ⟨a, b, by rw [hK']; exact c'⟩
      · exact Or.inr ⟨a, by rw [hK']; exact b⟩
  · -- pc = 4: EVAL of the atomic script
    obtain ⟨hres, huid, hKA⟩ := h4 hpc
    have hncA : ¬ committed qA := by simp [committed, hres]
    rcases hK with ⟨hnc1, hnc2, hKsome⟩ | ⟨hcsome, hKnone⟩
    · -- the old key is still there: the script commits
      have hex : st.existsKey (rawKey oldRaw) = true := by
        simp [Store.existsKey, hKsome]
      have hgu : st.hgetUserId (rawKey oldRaw) = some u := by
        simp [Store.hgetUserId, hKsome, hE0]
      have hscript : rotateScript st (rawKey oldRaw) (rawKey pA.rawNew)
          qA.uid pA.now s.refreshTTL =
          (((st.hset (rawKey pA.rawNew) ⟨qA.uid, pA.now⟩).expire
              (rawKey pA.rawNew) s.refreshTTL).del (rawKey oldRaw),
            .okRes) := by
        unfold rotateScript
        simp [hex, hgu, huid, hu]
      have hstep : stepRot s oldRaw pA qA st =
          ({ qA with pc := 99, res := some none },
            ((st.hset (rawKey pA.rawNew) ⟨qA.uid, pA.now⟩).expire
              (rawKey pA.rawNew) s.refreshTTL).del (rawKey oldRaw)) := by
        simp only [stepRot, hpc]
        simp [rawKey_def, hscript]
      have httl : st.ttlOf (rawKey pA.rawNew) = some s.refreshTTL := by
        unfold Store.ttlOf
        rw [hKA]
      have h1' : (st.hset (rawKey pA.rawNew) ⟨qA.uid, pA.now⟩).lookup
          (rawKey pA.rawNew) = some ⟨⟨u, pA.now⟩, some s.refreshTTL⟩ := by
        rw [Store.lookup_hset_self, httl, huid]
      have h2' : ((st.hset (rawKey pA.rawNew) ⟨qA.uid, pA.now⟩).expire
          (rawKey pA.rawNew) s.refreshTTL).lookup (rawKey pA.rawNew) =
          some ⟨⟨u, pA.now⟩, some s.refreshTTL⟩ :=
        Store.lookup_expire_self _ _ _ _ h1'
      have hKAf : (((st.hset (rawKey pA.rawNew) ⟨qA.uid, pA.now⟩).expire
          (rawKey pA.rawNew) s.refreshTTL).del (rawKey oldRaw)).lookup
          (rawKey pA.rawNew) = some ⟨⟨u, pA.now⟩, some s.refreshTTL⟩ := by
        rw [Store.lookup_del_ne _ _ _ hA]
        exact h2'
      have hKBf : (((st.hset (rawKey pA.rawNew) ⟨qA.uid, pA.now⟩).expire
          (rawKey pA.rawNew) s.refreshTTL).del (rawKey oldRaw)).lookup
          (rawKey pB.rawNew) = st.lookup (rawKey pB.rawNew) := by
        rw [Store.lookup_del_ne _ _ _ hB,
          Store.lookup_expire_ne _ _ _ _ (Ne.symm hAB),
          Store.lookup_hset_ne _ _ _ _ (Ne.symm hAB)]
      have hKf : (((st.hset (rawKey pA.rawNew) ⟨qA.uid, pA.now⟩).expire
          (rawKey pA.rawNew) s.refreshTTL).del (rawKey oldRaw)).lookup
          (rawKey oldRaw) = none :=
        Store.lookup_del_self _ _
      rw [hstep]
      refine ⟨?_, ?_, Or.inr ⟨Or.inl rfl, hKf⟩, ?_⟩
      · unfold procInv
        refine ⟨by simp, by simp, by simp, by simp, by simp, by simp,
          fun _ => Or.inl ⟨rfl, hKAf⟩⟩
      · exact procInv_mono s u pB (rawKey pB.rawNew) st _ _ _ qB hKBf
          (fun h => absurd h hncA) hPB
      · intro hc
        exact hnc2 hc.2
    · -- the old key is gone: the script aborts with old_not_found
      have hcB : committed qB := by
        rcases hcsome with h | h
        · exact absurd h hncA
        · exact h
      have hex : st.existsKey (rawKey oldRaw) = false := by
        simp [Store.existsKey, hKnone]
      have hscript : rotateScript st (rawKey oldRaw) (rawKey pA.rawNew)
          qA.uid pA.now s.refreshTTL = (st, .oldNotFound) := by
        unfold rotateScript
        simp [hex]
      have hstep : stepRot s oldRaw pA qA st = ({ qA with pc := 5 }, st) := by
        simp only [stepRot, hpc]
        simp [rawKey_def, hscript]
      rw [hstep]
      refine ⟨?_, hPB, Or.inr ⟨Or.inr hcB, hKnone⟩, hBoth⟩
      unfold procInv
      refine ⟨by simp, by simp, by simp, by simp, by simp,
        fun _ => ⟨hres, huid, hKA, hcB⟩, by simp⟩
  · -- pc = 5: rollback DEL of the own new key, then return InvalidToken
    obtain ⟨hres, huid, hKA, hoC⟩ := h5 hpc
    have hncA : ¬ committed qA := by simp [committed, hres]
    have hstep : stepRot s oldRaw pA qA st =
        ({ qA with pc := 99, res := some (some ErrInvalidToken) },
          st.del (rawKey pA.rawNew)) := by
      simp only [stepRot, hpc]
      simp [rawKey_def]
    have hKAf : (st.del (rawKey pA.rawNew)).lookup (rawKey pA.rawNew) =
        none :=
      Store.lookup_del_self _ _
    have hKBf : (st.del (rawKey pA.rawNew)).lookup (rawKey pB.rawNew) =
        st.lookup (rawKey pB.rawNew) :=
      Store.lookup_del_ne _ _ _ (Ne.symm hAB)
    have hKf : (st.del (rawKey pA.rawNew)).lookup (rawKey oldRaw) =
        st.lookup (rawKey oldRaw) :=
      Store.lookup_del_ne _ _ _ (Ne.symm hA)
    have hKnone : st.lookup (rawKey oldRaw) = none := by
      rcases hK with ⟨_, hnc2, _⟩ | ⟨_, hn⟩
      · exact absurd hoC hnc2
      · exact hn
    rw [hstep]
    refine ⟨?_, ?_, Or.inr ⟨Or.inr hoC, by rw [hKf]; exact hKnone⟩, ?_⟩
    · unfold procInv
      refine ⟨by simp, by simp, by simp, by simp, by simp, by simp,
        fun _ => Or.inr ⟨rfl, hKAf, hoC⟩⟩
    · exact procInv_mono s u pB (rawKey pB.rawNew) st _ _ _ qB hKBf
        (fun h => absurd h hncA) hPB
    · intro hc
      rcases hc with ⟨hc1, _⟩
      simp [committed] at hc1
  · -- pc = 99: the call has returned; no step
    have hstep : stepRot s oldRaw pA qA st = (qA, st) := by
      simp only [stepRot, hpc]
    rw [hstep]
    exact ⟨⟨Or.inr (Or.inr (Or.inr (Or.inr (Or.inr (Or.inr hpc))))), h01,
      h2, h3, h4, h5, h99⟩, hPB, hK, hBoth⟩

theorem GInv_step (s : TokenService) (oldRaw u : String) (E0 : Entry)
    (p1 p2 : RotCallParams)
    (hE0 : E0.record.user_id = u) (hu : u ≠ "")
    (h1 : rawKey p1.rawNew ≠ rawKey oldRaw)
    (h2 : rawKey p2.rawNew ≠ rawKey oldRaw)
    (h12 : rawKey p1.rawNew ≠ rawKey p2.rawNew)
    (he1 : p1.expected = "" ∨ p1.expected = u)
    (he2 : p2.expected = "" ∨ p2.expected = u)
    (c : ConcState) (who : Bool) (h : GInv s oldRaw u E0 p1 p2 c) :
    GInv s oldRaw u E0 p1 p2 (stepSched s oldRaw p1 p2 c who) := by
  obtain ⟨hP1, hP2, hK, hB⟩ := h
  cases who with
  | true =>
    have hs := stepRot_preserves s oldRaw u E0 p1 p2 c.store c.q1 c.q2
      hE0 hu h1 h2 h12 he1 hP1 hP2 hK hB
    exact ⟨hs.1, hs.2.1, hs.2.2.1, hs.2.2.2⟩
  | false =>
    obtain ⟨hP2', hP1', hK', hB'⟩ :=
      GInv_swap s oldRaw u E0 p1 p2 c ⟨hP1, hP2, hK, hB⟩
    have hs := stepRot_preserves s oldRaw u E0 p2 p1 c.store c.q2 c.q1
      hE0 hu h2 h1 (Ne.symm h12) he2 hP2' hP1' hK' hB'
    refine ⟨hs.2.1, hs.1, ?_, fun hc => hs.2.2.2 ⟨hc.2, hc.1⟩⟩
    rcases hs.2.2.1 with ⟨a, b, c'⟩ | ⟨a, b⟩
    · exact Or.inl ⟨b, a, c'⟩
    · exact Or.inr ⟨a.symm, b⟩

theorem GInv_run (s : TokenService) (oldRaw u : String) (E0 : Entry)
    (p1 p2 : RotCallParams)
    (hE0 : E0.record.user_id = u) (hu : u ≠ "")
    (h1 : rawKey p1.rawNew ≠ rawKey oldRaw)
    (h2 : rawKey p2.rawNew ≠ rawKey oldRaw)
    (h12 : rawKey p1.rawNew ≠ rawKey p2.rawNew)
    (he1 : p1.expected = "" ∨ p1.expected = u)
    (he2 : p2.expected = "" ∨ p2.expected = u) :
    ∀ (sched : List Bool) (c : ConcState), GInv s oldRaw u E0 p1 p2 c →
      GInv s oldRaw u E0 p1 p2 (runSched s oldRaw p1 p2 c sched) := by
  intro sched
  induction sched with
  | nil => exact fun c h => h
  | cons who rest ih =>
    intro c h
    exact ih _ (GInv_step s oldRaw u E0 p1 p2 hE0 hu h1 h2 h12 he1 he2 c
      who h)

theorem procInv_done_pc (s : TokenService) (u : String)
    (p : RotCallParams) (Ki : String) (stc : Store) (oC : Prop) (q : Proc)
    (h : procInv s u p Ki stc oC q) (hd : q.res.isSome = true) :
    q.pc = 99 := by
  obtain ⟨hr, h01, h2, h3, h4, h5, _⟩ := h
  rcases hr with hp | hp | hp | hp | hp | hp | hp
  · rw [(h01 (Or.inl hp)).1] at hd
    simp at hd
  · rw [(h01 (Or.inr hp)).1] at hd
    simp at hd
  · rw [(h2 hp).1] at hd
    simp at hd
  · rw [(h3 hp).1] at hd
    simp at hd
  · rw [(h4 hp).1] at hd
    simp at hd
  · rw [(h5 hp).1] at hd
    simp at hd
  · exact hp

/-- The joint state after running a schedule of the two concurrent calls
from the initial store, both calls starting at their first command. -/
def finalState (s : TokenService) (oldRaw : String) (p1 p2 : RotCallParams)
    (st : Store) (sched : List Bool) : ConcState :=
  runSched s oldRaw p1 p2 ⟨st, Proc.start, Proc.start⟩ sched

/-- C2: for any interleaving (at Redis-command granularity) of two
concurrent RotateRefresh calls presenting the same old raw secret against
a store holding that record — with fresh distinct new secrets and owner
checks that would individually pass — once both calls have returned,
exactly one has committed and the other returned InvalidToken; the old
digest's record is gone; and exactly one new live record exists: the
winner's, owned by the original owner with the full refresh TTL, while
the loser's speculative record is gone. -/
theorem C2_concurrent_rotation_single_use (s : TokenService)
    (oldRaw u : String) (t0 : Int) (ttl0 : Option Int)
    (p1 p2 : RotCallParams) (st : Store) (sched : List Bool)
    (hu : u ≠ "")
    (hst : st.lookup (rawKey oldRaw) = some ⟨⟨u, t0⟩, ttl0⟩)
    (hf1 : st.lookup (rawKey p1.rawNew) = none)
    (hf2 : st.lookup (rawKey p2.rawNew) = none)
    (hd1 : p1.rawNew ≠ oldRaw) (hd2 : p2.rawNew ≠ oldRaw)
    (hd12 : p1.rawNew ≠ p2.rawNew)
    (he1 : p1.expected = "" ∨ p1.expected = u)
    (he2 : p2.expected = "" ∨ p2.expected = u)
    (hdone1 : (finalState s oldRaw p1 p2 st sched).q1.res.isSome = true)
    (hdone2 : (finalState s oldRaw p1 p2 st sched).q2.res.isSome = true) :
    ((committed (finalState s oldRaw p1 p2 st sched).q1 ∧
        failedInvalid (finalState s oldRaw p1 p2 st sched).q2)
      ∨ (committed (finalState s oldRaw p1 p2 st sched).q2 ∧
        failedInvalid (finalState s oldRaw p1 p2 st sched).q1))
    ∧ (finalState s oldRaw p1 p2 st sched).store.lookup (rawKey oldRaw) =
        none
    ∧ (committed (finalState s oldRaw p1 p2 st sched).q1 →
        (finalState s oldRaw p1 p2 st sched).store.lookup
            (rawKey p1.rawNew) = some ⟨⟨u, p1.now⟩, some s.refreshTTL⟩
        ∧ (finalState s oldRaw p1 p2 st sched).store.lookup
            (rawKey p2.rawNew) = none)
    ∧ (committed (finalState s oldRaw p1 p2 st sched).q2 →
        (finalState s oldRaw p1 p2 st sched).store.lookup
            (rawKey p2.rawNew) = some ⟨⟨u, p2.now⟩, some s.refreshTTL⟩
        ∧ (finalState s oldRaw p1 p2 st sched).store.lookup
            (rawKey p1.rawNew) = none) := by
  have hk1 : rawKey p1.rawNew ≠ rawKey oldRaw :=
    fun h => hd1 (rawKey_inj _ _ h)
  have hk2 : rawKey p2.rawNew ≠ rawKey oldRaw :=
    fun h => hd2 (rawKey_inj _ _ h)
  have hk12 : rawKey p1.rawNew ≠ rawKey p2.rawNew :=
    fun h => hd12 (rawKey_inj _ _ h)
  have hinit : GInv s oldRaw u ⟨⟨u, t0⟩, ttl0⟩ p1 p2
      ⟨st, Proc.start, Proc.start⟩ := by
    refine ⟨?_, ?_,
      Or.inl ⟨by simp [committed, Proc.start],
        by simp [committed, Proc.start], hst⟩,
      by simp [committed, Proc.start]⟩
    · unfold procInv
      refine ⟨by simp [Proc.start], fun _ => ⟨rfl, hf1⟩,
        by simp [Proc.start], by simp [Proc.start], by simp [Proc.start],
        by simp [Proc.start], by simp [Proc.start]⟩
    · unfold procInv
      refine ⟨by simp [Proc.start], fun _ => ⟨rfl, hf2⟩,
        by simp [Proc.start], by simp [Proc.start], by simp [Proc.start],
        by simp [Proc.start], by simp [Proc.start]⟩
  have hfin := GInv_run s oldRaw u ⟨⟨u, t0⟩, ttl0⟩ p1 p2 rfl hu hk1 hk2
    hk12 he1 he2 sched _ hinit
  obtain ⟨hP1, hP2, hK, hB⟩ := hfin
  have hpc1 := procInv_done_pc _ _ _ _ _ _ _ hP1 hdone1
  have hpc2 := procInv_done_pc _ _ _ _ _ _ _ hP2 hdone2
  obtain ⟨_, _, _, _, _, _, h99a⟩ := hP1
  obtain ⟨_, _, _, _, _, _, h99b⟩ := hP2
  rcases h99a hpc1 with ⟨hres1, hKA1⟩ | ⟨hres1, hKA1, hoC1⟩ <;>
    rcases h99b hpc2 with ⟨hres2, hKA2⟩ | ⟨hres2, hKA2, hoC2⟩
  · exact absurd ⟨hres1, hres2⟩ hB
  · refine ⟨Or.inl ⟨hres1, hres2⟩, ?_, fun _ => ⟨hKA1, hKA2⟩, ?_⟩
    · rcases hK with ⟨hn1, _, _⟩ | ⟨_, hnone⟩
      · exact absurd hres1 hn1
      · exact hnone
    · intro hc
      simp only [finalState, committed] at hc
      rw [hres2] at hc
      simp at hc
  · refine ⟨Or.inr ⟨hres2, hres1⟩, ?_, ?_, fun _ => ⟨hKA2, hKA1⟩⟩
    · rcases hK with ⟨_, hn2, _⟩ | ⟨_, hnone⟩
      · exact absurd hres2 hn2
      · exact hnone
    · intro hc
      simp only [finalState, committed] at hc
      rw [hres1] at hc
      simp at hc
  · simp only [committed] at hoC1
    rw [hres2] at hoC1
    simp at hoC1

/-- Call parameters of the first concurrent rotation fixture. -/
def fxP1 : RotCallParams := ⟨"", "n1", 1000⟩

/-- Call parameters of the second concurrent rotation fixture. -/
def fxP2 : RotCallParams := ⟨"", "n2", 1000⟩

/-- An alternating schedule long enough for both fixture calls to return. -/
def fxSched : List Bool :=
  [true, false, true, false, true, false, true, false, true, false, true,
    false]

/-- C2 witness: on the alternating fixture schedule both calls return,
call 1 commits, call 2 gets InvalidToken, the old record is gone and only
call 1's new record remains. -/
theorem C2_concurrent_rotation_single_use_w :
    ((committed (finalState fxSvc fxOld fxP1 fxP2 fxStore fxSched).q1 ∧
        failedInvalid (finalState fxSvc fxOld fxP1 fxP2 fxStore fxSched).q2)
      ∨ (committed (finalState fxSvc fxOld fxP1 fxP2 fxStore fxSched).q2 ∧
        failedInvalid (finalState fxSvc fxOld fxP1 fxP2 fxStore fxSched).q1))
    ∧ (finalState fxSvc fxOld fxP1 fxP2 fxStore fxSched).store.lookup
        (rawKey fxOld) = none
    ∧ (committed (finalState fxSvc fxOld fxP1 fxP2 fxStore fxSched).q1 →
        (finalState fxSvc fxOld fxP1 fxP2 fxStore fxSched).store.lookup
            (rawKey "n1") = some ⟨⟨"u1", 1000⟩, some 604800⟩
        ∧ (finalState fxSvc fxOld fxP1 fxP2 fxStore fxSched).store.lookup
            (rawKey "n2") = none)
    ∧ (committed (finalState fxSvc fxOld fxP1 fxP2 fxStore fxSched).q2 →
        (finalState fxSvc fxOld fxP1 fxP2 fxStore fxSched).store.lookup
            (rawKey "n2") = some ⟨⟨"u1", 1000⟩, some 604800⟩
        ∧ (finalState fxSvc fxOld fxP1 fxP2 fxStore fxSched).store.lookup
            (rawKey "n1") = none) :=
  C2_concurrent_rotation_single_use fxSvc fxOld "u1" 0 (some 604800) fxP1
    fxP2 fxStore fxSched (by decide) rfl rfl rfl (by decide) (by decide)
    (by decide) (Or.inl rfl) (Or.inl rfl) (by decide) (by decide)

end AuthService
